import Mathlib

/-!
Shallow embedding of the camera coordination logic of src/app.py
(class CameraStreamWithLCD, class NetworkMonitor, and the Flask route
handlers), used to check the specification claims about failure
handling, profile switching, network hysteresis, client accounting,
and frame conversion.
-/

namespace PiCam

/-- Driver-level calls made against the Picamera2 sensor handle. -/
inductive DriverOp where
  | create
  | configure (size : Nat × Nat)
  | start
  | stopCall
  | closeCall
  | captureCall
deriving DecidableEq, Repr

/-- The camera-related mutable fields of CameraStreamWithLCD. The handle
field picam2 records the configured resolution when a handle object exists. -/
structure CamState where
  picam2 : Option (Nat × Nat)
  streaming : Bool
  lcd_streaming : Bool
  web_streaming : Bool
  camera_error_count : Nat
  last_camera_error : Option Nat
deriving DecidableEq, Repr

/-- max_camera_errors from CameraStreamWithLCD.__init__. -/
def max_camera_errors : Nat := 5

/-- camera_recovery_delay (seconds) from CameraStreamWithLCD.__init__. -/
def camera_recovery_delay : Nat := 10

/-- Both time guards in the source read the .seconds field of a datetime
difference. For a nonnegative timedelta that field is the seconds component
of the normalized days/seconds pair, i.e. the elapsed seconds mod 86400;
whole days are discarded. -/
def secondsPerDay : Nat := 86400

/-- The state built in CameraStreamWithLCD.__init__. -/
def initCamState : CamState :=
  { picam2 := none, streaming := false, lcd_streaming := false,
    web_streaming := false, camera_error_count := 0, last_camera_error := none }

/-- ASCII lowering of one character, modelling str.lower applied to the
driver error text. -/
def lowerChar (c : Char) : Char :=
  if 65 ≤ c.toNat ∧ c.toNat ≤ 90 then Char.ofNat (c.toNat + 32) else c

/-- The hardware marker substrings checked by safe_camera_operation. -/
def hwKeywords : List String := ["timeout", "dequeue", "frontend", "connector"]

/-- Hardware classification: some keyword occurs in the lowercased error
text, as in the in-check of safe_camera_operation. -/
def isHardwareError (msg : String) : Bool :=
  hwKeywords.any (fun k => decide (k.data <:+: msg.data.map lowerChar))

/-- Outcome of one attempted camera operation: the normal return value or a
raised exception message, together with the state at the return or raise
point and the driver calls attempted along the way. -/
structure OpOutcome (α : Type) where
  result : Except String α
  state : CamState
  trace : List DriverOp

/-- force_camera_cleanup: when a handle exists, attempt driver stop and
driver close (each with a swallowed failure) and null the handle. -/
def force_camera_cleanup (s : CamState) : CamState × List DriverOp :=
  match s.picam2 with
  | none => (s, [])
  | some _ => ({ s with picam2 := none }, [DriverOp.stopCall, DriverOp.closeCall])

/-- safe_camera_operation: run the operation; on an exception increment the
error counter and record the failure time; when the message matches a
hardware keyword, force a cleanup and, at the error ceiling, clear all three
streaming flags. Returns the operation value, or none on failure. -/
def safe_camera_operation {α : Type} (now : Nat) (op : CamState → OpOutcome α)
    (s : CamState) : Option α × CamState × List DriverOp :=
  let o := op s
  match o.result with
  | Except.ok v => (some v, o.state, o.trace)
  | Except.error msg =>
    let s2 := { o.state with
      camera_error_count := o.state.camera_error_count + 1,
      last_camera_error := some now }
    if isHardwareError msg then
      let c := force_camera_cleanup s2
      if max_camera_errors ≤ c.1.camera_error_count then
        (none,
         { c.1 with streaming := false, lcd_streaming := false,
                    web_streaming := false },
         o.trace ++ c.2)
      else
        (none, c.1, o.trace ++ c.2)
    else
      (none, s2, o.trace)

/-- The resolution _start_camera picks from the web_streaming flag. -/
def camSize (web_streaming : Bool) : Nat × Nat :=
  if web_streaming then (640, 480) else (128, 128)

/-- The inner _start_camera closure. A start whose elapsed time since the
last recorded error has a seconds component (elapsed mod 86400, the
timedelta .seconds field read at app.py:286) below camera_recovery_delay
returns False without touching the driver. startError injects an exception
raised by the driver start call, after the handle object was already
assigned. A successful start resets the error counter to zero. -/
def _start_camera (now : Nat) (startError : Option String) (s : CamState) :
    OpOutcome Bool :=
  match s.picam2 with
  | some _ => { result := Except.ok true, state := s, trace := [] }
  | none =>
    let inRecovery :=
      match s.last_camera_error with
      | some t => decide ((now - t) % secondsPerDay < camera_recovery_delay)
      | none => false
    if inRecovery then
      { result := Except.ok false, state := s, trace := [] }
    else
      let sz := camSize s.web_streaming
      let s1 := { s with picam2 := some sz }
      let tr := [DriverOp.create, DriverOp.configure sz, DriverOp.start]
      match startError with
      | some msg => { result := Except.error msg, state := s1, trace := tr }
      | none =>
        { result := Except.ok true,
          state := { s1 with camera_error_count := 0 }, trace := tr }

/-- start_camera: safe_camera_operation around _start_camera. -/
def start_camera (now : Nat) (startError : Option String) (s : CamState) :
    Option Bool × CamState × List DriverOp :=
  safe_camera_operation now (_start_camera now startError) s

/-- The state-relevant skeleton of the _capture_web_frame and LCD capture
closures: the driver is asked for a frame only when a handle exists;
captureError injects an exception raised by capture_array. -/
def _capture_op (captureError : Option String) (s : CamState) :
    OpOutcome Bool :=
  match s.picam2 with
  | none => { result := Except.ok false, state := s, trace := [] }
  | some _ =>
    match captureError with
    | some msg =>
      { result := Except.error msg, state := s, trace := [DriverOp.captureCall] }
    | none =>
      { result := Except.ok true, state := s, trace := [DriverOp.captureCall] }

/-- capture: safe_camera_operation around a single frame grab. -/
def capture (now : Nat) (captureError : Option String) (s : CamState) :
    Option Bool × CamState × List DriverOp :=
  safe_camera_operation now (_capture_op captureError) s

/-- stop_camera: when a handle exists, attempt driver stop then driver
close, swallowing a failure of each sub-call individually (the two Bool
arguments inject such sub-call failures and do not change the outcome),
then null the handle; with no handle it does nothing. -/
def stop_camera (stopFails closeFails : Bool) (s : CamState) :
    CamState × List DriverOp :=
  match s.picam2 with
  | none => (s, [])
  | some _ =>
    ({ s with picam2 := none }, [DriverOp.stopCall, DriverOp.closeCall])

/-- restart_camera_if_needed, exactly as coded: current_size is derived
from the need_web_res argument (not from the actual configuration) whenever
a handle exists, and the restart branch runs stop_camera then start_camera. -/
def restart_camera_if_needed (need_web_res : Bool) (now : Nat) (s : CamState) :
    Option Bool × CamState × List DriverOp :=
  let current_size : Option (Nat × Nat) :=
    match s.picam2 with
    | some _ => some (if need_web_res then (640, 480) else (128, 128))
    | none => none
  let need_restart :=
    (need_web_res && decide (current_size = some (128, 128))) ||
    (!need_web_res && decide (current_size = some (640, 480)))
  if need_restart then
    let c := stop_camera false false s
    let r := start_camera now none c.1
    (r.1, r.2.1, c.2 ++ r.2.2)
  else
    (some true, s, [])

/-- Iterated hardware-faulting start attempts, a fault-injection harness
used to drive the error counter up to its ceiling. -/
def failedStarts (times : List Nat) (s : CamState) : CamState :=
  times.foldl (fun st t => (start_camera t (some "timeout") st).2.1) s

/-- max_failed_checks from NetworkMonitor.__init__. -/
def max_failed_checks : Nat := 3

/-- check_interval (seconds) from NetworkMonitor.__init__. -/
def check_interval : Nat := 5

/-- The mutable fields of NetworkMonitor. -/
structure NetworkMonitor where
  is_connected : Bool
  last_check : Nat
  failed_checks : Nat
deriving DecidableEq, Repr

/-- is_network_stable: while the seconds component of the elapsed time
since the last real check (elapsed mod 86400, the timedelta .seconds field
read at app.py:140) is below check_interval, return the cached value
untouched; otherwise probe: a fully healthy round resets the counter and
sets connected, a failed round increments the counter and clears connected
once the counter reaches max_failed_checks. -/
def is_network_stable (m : NetworkMonitor) (now : Nat)
    (wifi_ok internet_ok : Bool) : Bool × NetworkMonitor :=
  if (now - m.last_check) % secondsPerDay < check_interval then
    (m.is_connected, m)
  else
    let m1 := { m with last_check := now }
    if wifi_ok && internet_ok then
      (true, { m1 with failed_checks := 0, is_connected := true })
    else
      let m2 := { m1 with failed_checks := m1.failed_checks + 1 }
      if max_failed_checks ≤ m2.failed_checks then
        (false, { m2 with is_connected := false })
      else
        (m2.is_connected, m2)

/-- One client event on the /video_feed route: an HTTP consumer attaching,
or its guaranteed-cleanup block running on detach or abrupt disconnect. -/
inductive FeedEvent where
  | attach
  | detach
deriving DecidableEq, Repr

/-- The active_clients update of video_feed: attach adds one; the cleanup
block stores max(0, n - 1). -/
def clientStep (n : Int) : FeedEvent → Int
  | FeedEvent.attach => n + 1
  | FeedEvent.detach => max 0 (n - 1)

/-- Run a sequence of client events against the counter. -/
def runClients (es : List FeedEvent) (n : Int) : Int :=
  es.foldl clientStep n

/-- A sequence is well-formed when every detach closes an earlier attach:
in every prefix the detaches never outnumber the attaches. -/
def validSeq (es : List FeedEvent) : Bool :=
  es.inits.all
    (fun p => decide (p.count FeedEvent.detach ≤ p.count FeedEvent.attach))

/-- The /start_stream route: whether start_streaming is invoked, and the
JSON status and message returned. -/
def start_stream_route (streaming : Bool) : Bool × String × String :=
  if streaming then (false, "success", "Stream started")
  else (true, "success", "Stream started")

/-- PIL image modes producible by Image.fromarray on the uint8 arrays the
sensor emits: a 2-D array gives L, 3 channels give RGB, 4 channels RGBA. -/
inductive PixMode where
  | L
  | RGB
  | RGBA
deriving DecidableEq, Repr

/-- An image as seen by the web-frame conversion: its mode and size. -/
structure WebImage where
  mode : PixMode
  size : Nat × Nat
deriving DecidableEq, Repr

/-- The pre-JPEG conversion in _capture_web_frame and the single-frame
captures: an RGBA frame is pasted onto an opaque white background using its
alpha channel as the paste mask; any other non-RGB mode is converted to RGB;
an RGB frame passes through. Returns the image handed to the JPEG encoder,
the background color when compositing happened, and whether the paste mask
was the alpha channel. -/
def _capture_web_frame_convert (img : WebImage) :
    WebImage × Option (Nat × Nat × Nat) × Bool :=
  match img.mode with
  | PixMode.RGBA =>
    ({ mode := PixMode.RGB, size := img.size }, some (255, 255, 255), true)
  | PixMode.RGB => (img, none, false)
  | PixMode.L => ({ mode := PixMode.RGB, size := img.size }, none, false)

/-- The _do_capture closure of the /capture route: when no handle exists it
creates a temporary camera configured at 640x480, captures, and on success
stops the temporary camera and nulls the handle again; with an existing
handle it just captures. -/
def _do_capture (captureError : Option String) (s : CamState) :
    OpOutcome Bool :=
  match s.picam2 with
  | none =>
    let s1 := { s with picam2 := some (640, 480) }
    let tr := [DriverOp.create, DriverOp.configure (640, 480), DriverOp.start]
    match captureError with
    | some msg =>
      { result := Except.error msg, state := s1,
        trace := tr ++ [DriverOp.captureCall] }
    | none =>
      { result := Except.ok true, state := { s1 with picam2 := none },
        trace := tr ++ [DriverOp.captureCall, DriverOp.stopCall] }
  | some _ =>
    match captureError with
    | some msg =>
      { result := Except.error msg, state := s, trace := [DriverOp.captureCall] }
    | none =>
      { result := Except.ok true, state := s, trace := [DriverOp.captureCall] }

/-- The /capture route body: safe_camera_operation around _do_capture. -/
def capture_route (now : Nat) (captureError : Option String) (s : CamState) :
    Option Bool × CamState × List DriverOp :=
  safe_camera_operation now (_do_capture captureError) s

/-- The client counter never drops below zero from a nonnegative start. -/
theorem runClients_nonneg (es : List FeedEvent) :
    ∀ n : Int, 0 ≤ n → 0 ≤ runClients es n := by
  induction es with
  | nil => intro n h; exact h
  | cons e tl ih =>
    intro n h
    cases e
    · exact ih (n + 1) (by omega)
    · exact ih (max 0 (n - 1)) (le_max_left 0 _)

/-- For a sequence in which every prefix has at least as many attaches as
detaches, the counter equals attaches minus detaches. -/
theorem runClients_eq_counts (es : List FeedEvent) (h : validSeq es = true) :
    runClients es 0 =
      (es.count FeedEvent.attach : Int) - es.count FeedEvent.detach := by
  induction es using List.reverseRecOn with
  | nil => simp [runClients]
  | append_singleton l e ih =>
    have hl : validSeq l = true := by
      simp only [validSeq, List.all_eq_true] at h ⊢
      intro p hp
      exact h p ((List.mem_inits _ _).2
        (((List.mem_inits _ _).1 hp).trans (List.prefix_append l [e])))
    have hIH := ih hl
    have hstep : runClients (l ++ [e]) 0 = clientStep (runClients l 0) e := by
      simp [runClients, List.foldl_append]
    have haa : ([FeedEvent.attach] : List FeedEvent).count FeedEvent.attach
        = 1 := by decide
    have had : ([FeedEvent.attach] : List FeedEvent).count FeedEvent.detach
        = 0 := by decide
    have hda : ([FeedEvent.detach] : List FeedEvent).count FeedEvent.attach
        = 0 := by decide
    have hdd : ([FeedEvent.detach] : List FeedEvent).count FeedEvent.detach
        = 1 := by decide
    cases e with
    | attach =>
      rw [hstep, hIH]
      simp only [clientStep, List.count_append, haa, had]
      push_cast
      ring
    | detach =>
      have hfull := (List.all_eq_true.1 h) (l ++ [FeedEvent.detach])
        ((List.mem_inits _ _).2 (List.prefix_refl _))
      simp only [decide_eq_true_eq, List.count_append, hda, hdd] at hfull
      rw [hstep, hIH]
      simp only [clientStep, List.count_append, hda, hdd]
      rw [max_eq_right (by omega)]
      push_cast
      ring

/-- C1 counterexample: five consecutive hardware-classified start failures
drive the error counter to its ceiling of five, yet a sixth start issued
after the recovery delay invokes the sensor driver (create, configure,
start) and succeeds, resetting the counter to zero: the code has no
disabled condition that waits for an external reset. -/
theorem C1_counterexample :
    (failedStarts [0, 10, 20, 30, 40] initCamState).camera_error_count = 5 ∧
    (start_camera 60 none (failedStarts [0, 10, 20, 30, 40] initCamState)).1
      = some true ∧
    (start_camera 60 none (failedStarts [0, 10, 20, 30, 40] initCamState)).2.2
      = [DriverOp.create, DriverOp.configure (128, 128), DriverOp.start] ∧
    (start_camera 60 none
        (failedStarts [0, 10, 20, 30, 40] initCamState)).2.1.camera_error_count
      = 0 := by
  decide

/-- C1 amended: when a hardware-classified failure brings the counter to the
ceiling, the operation returns none, all streaming flags are cleared and the
handle is nulled; a start fails fast (returns False) without any driver call
exactly while the seconds component of the elapsed time since the last
failure, (now - t) mod 86400, is below camera_recovery_delay - a window
that recurs in the first ten seconds of every subsequent day; any start
outside that window invokes the driver again and a successful one resets
the counter - the lockout is a cooldown window, not a permanent disable. -/
theorem C1_amended_behavior :
    (∀ now msg s sz, s.picam2 = some sz → isHardwareError msg = true →
      max_camera_errors ≤ s.camera_error_count + 1 →
      (capture now (some msg) s).1 = none ∧
      (capture now (some msg) s).2.1.streaming = false ∧
      (capture now (some msg) s).2.1.lcd_streaming = false ∧
      (capture now (some msg) s).2.1.web_streaming = false ∧
      (capture now (some msg) s).2.1.picam2 = none) ∧
    (∀ now t e s, s.picam2 = none → s.last_camera_error = some t →
      (now - t) % secondsPerDay < camera_recovery_delay →
      start_camera now e s = (some false, s, [])) ∧
    (∀ now t s, s.picam2 = none → s.last_camera_error = some t →
      camera_recovery_delay ≤ (now - t) % secondsPerDay →
      (start_camera now none s).1 = some true ∧
      (start_camera now none s).2.1.camera_error_count = 0 ∧
      (start_camera now none s).2.2 =
        [DriverOp.create, DriverOp.configure (camSize s.web_streaming),
         DriverOp.start]) := by
  refine ⟨?_, ?_, ?_⟩
  · intro now msg s sz h1 h2 h3
    obtain ⟨p2, st, lcd, web, cnt, le⟩ := s
    obtain rfl : p2 = some sz := h1
    simp only [max_camera_errors] at h3
    simp [capture, safe_camera_operation, _capture_op, force_camera_cleanup,
      h2, max_camera_errors, h3]
  · intro now t e s h1 h2 h3
    obtain ⟨p2, st, lcd, web, cnt, le⟩ := s
    obtain rfl : p2 = none := h1
    obtain rfl : le = some t := h2
    simp [start_camera, safe_camera_operation, _start_camera, h3]
  · intro now t s h1 h2 h3
    obtain ⟨p2, st, lcd, web, cnt, le⟩ := s
    obtain rfl : p2 = none := h1
    obtain rfl : le = some t := h2
    simp [start_camera, safe_camera_operation, _start_camera,
      Nat.not_lt.mpr h3]

/-- C1 witness: the amended facts at concrete inputs. -/
theorem C1_amended_behavior_witness :
    ((capture 0 (some "timeout")
        { initCamState with picam2 := some (640, 480),
                            camera_error_count := 4 }).1 = none ∧
     (capture 0 (some "timeout")
        { initCamState with picam2 := some (640, 480),
                            camera_error_count := 4 }).2.1.streaming = false ∧
     (capture 0 (some "timeout")
        { initCamState with picam2 := some (640, 480),
                            camera_error_count := 4 }).2.1.lcd_streaming = false ∧
     (capture 0 (some "timeout")
        { initCamState with picam2 := some (640, 480),
                            camera_error_count := 4 }).2.1.web_streaming = false ∧
     (capture 0 (some "timeout")
        { initCamState with picam2 := some (640, 480),
                            camera_error_count := 4 }).2.1.picam2 = none) ∧
    (start_camera 5 none { initCamState with last_camera_error := some 0 } =
      (some false, { initCamState with last_camera_error := some 0 }, [])) ∧
    ((start_camera 20 none
        { initCamState with last_camera_error := some 0 }).1 = some true ∧
     (start_camera 20 none
        { initCamState with last_camera_error := some 0 }).2.1.camera_error_count
       = 0 ∧
     (start_camera 20 none
        { initCamState with last_camera_error := some 0 }).2.2 =
       [DriverOp.create, DriverOp.configure (128, 128), DriverOp.start]) :=
  ⟨C1_amended_behavior.1 0 "timeout" _ (640, 480) rfl (by decide) (by decide),
   C1_amended_behavior.2.1 5 0 none _ rfl rfl (by decide),
   C1_amended_behavior.2.2 20 0 _ rfl rfl (by decide)⟩

/-- C2 counterexample: with the consecutive-failure counter at 3 and a
handle present, a capture succeeds and the counter remains 3, not 0: a
successful capture does not reset the counter. -/
theorem C2_counterexample :
    (capture 0 none
       { initCamState with picam2 := some (640, 480),
                           camera_error_count := 3 }).1 = some true ∧
    (capture 0 none
       { initCamState with picam2 := some (640, 480),
                           camera_error_count := 3 }).2.1.camera_error_count
      = 3 ∧
    (3 : Nat) ≠ 0 := by
  decide

/-- C2 amended: each raising capture increments the consecutive-failure
counter by exactly one, a successful capture leaves it unchanged, and the
reset to zero happens on a successful camera start. -/
theorem C2_amended_counter (now : Nat) (s : CamState) (msg : String)
    (sz : Nat × Nat) :
    (s.picam2 = some sz →
      (capture now (some msg) s).2.1.camera_error_count
        = s.camera_error_count + 1) ∧
    (capture now none s).2.1.camera_error_count = s.camera_error_count ∧
    (s.picam2 = none → s.last_camera_error = none →
      (start_camera now none s).2.1.camera_error_count = 0) := by
  obtain ⟨p2, st, lcd, web, cnt, le⟩ := s
  refine ⟨?_, ?_, ?_⟩
  · intro h
    obtain rfl : p2 = some sz := h
    by_cases hw : isHardwareError msg
    · by_cases hc : max_camera_errors ≤ cnt + 1 <;>
        simp [capture, safe_camera_operation, _capture_op,
          force_camera_cleanup, hw, hc]
    · simp [capture, safe_camera_operation, _capture_op, hw]
  · cases p2 <;> simp [capture, safe_camera_operation, _capture_op]
  · intro h1 h2
    obtain rfl : p2 = none := h1
    obtain rfl : le = none := h2
    simp [start_camera, safe_camera_operation, _start_camera]

/-- C2 witness: the amended facts at concrete inputs. -/
theorem C2_amended_counter_witness :
    (capture 0 (some "bad frame")
       { initCamState with picam2 := some (640, 480) }).2.1.camera_error_count
      = ({ initCamState with
            picam2 := some (640, 480) } : CamState).camera_error_count + 1 ∧
    (capture 0 none
       { initCamState with picam2 := some (640, 480) }).2.1.camera_error_count
      = ({ initCamState with
            picam2 := some (640, 480) } : CamState).camera_error_count ∧
    (start_camera 0 none initCamState).2.1.camera_error_count = 0 :=
  ⟨(C2_amended_counter 0 _ "bad frame" (640, 480)).1 rfl,
   (C2_amended_counter 0 _ "bad frame" (640, 480)).2.1,
   (C2_amended_counter 0 initCamState "x" (0, 0)).2.2 rfl rfl⟩

/-- C3: as coded, restart_camera_if_needed never restarts anything:
current_size is derived from the request flag rather than from the actual
configuration, so the two restart conditions are unsatisfiable and the
function returns True with no stop and no start for every state - including
a camera running at 128x128 when the 640x480 web profile is requested. -/
theorem C3_restart_never_fires (need_web_res : Bool) (now : Nat)
    (s : CamState) :
    restart_camera_if_needed need_web_res now s = (some true, s, []) := by
  obtain ⟨p2, st, lcd, web, cnt, le⟩ := s
  cases p2 <;> cases need_web_res <;> rfl

/-- C4: a call made within check_interval seconds of the last real check
returns the cached value with no state change (the gate compares the
seconds component of the elapsed time, so a short elapsed time always
stays cached); whenever the gate lets a probe round run, one fully healthy
round resets the failure counter and restores the stable flag, and from a
fresh counter exactly three consecutive failed probe rounds are needed
before the stable flag drops: the first two leave it unchanged, the third
clears it. -/
theorem C4_network_hysteresis :
    (∀ m now w i, now - m.last_check < check_interval →
      is_network_stable m now w i = (m.is_connected, m)) ∧
    (∀ m now, check_interval ≤ (now - m.last_check) % secondsPerDay →
      is_network_stable m now true true =
        (true, { m with last_check := now, failed_checks := 0,
                        is_connected := true })) ∧
    (∀ b tc t w i, (w && i) = false →
      check_interval ≤ (t - tc) % secondsPerDay →
      is_network_stable ⟨b, tc, 0⟩ t w i = (b, ⟨b, t, 1⟩)) ∧
    (∀ b tc t w i, (w && i) = false →
      check_interval ≤ (t - tc) % secondsPerDay →
      is_network_stable ⟨b, tc, 1⟩ t w i = (b, ⟨b, t, 2⟩)) ∧
    (∀ b tc t w i, (w && i) = false →
      check_interval ≤ (t - tc) % secondsPerDay →
      is_network_stable ⟨b, tc, 2⟩ t w i = (false, ⟨false, t, 3⟩)) := by
  refine ⟨?_, ?_, ?_, ?_, ?_⟩
  · intro m now w i h
    have h' : (now - m.last_check) % secondsPerDay < check_interval := by
      simp only [check_interval, secondsPerDay] at h ⊢
      omega
    simp [is_network_stable, h']
  · intro m now h
    simp [is_network_stable, Nat.not_lt.mpr h]
  · intro b tc t w i hwi h
    simp [is_network_stable, Nat.not_lt.mpr h, hwi, max_failed_checks]
  · intro b tc t w i hwi h
    simp [is_network_stable, Nat.not_lt.mpr h, hwi, max_failed_checks]
  · intro b tc t w i hwi h
    simp [is_network_stable, Nat.not_lt.mpr h, hwi, max_failed_checks]

/-- C4 witness: the cached path, the healthy reset, and the three failed
rounds of the hysteresis at concrete inputs. -/
theorem C4_network_hysteresis_witness :
    is_network_stable ⟨true, 0, 0⟩ 3 false false = (true, ⟨true, 0, 0⟩) ∧
    is_network_stable ⟨false, 10, 4⟩ 17 true true = (true, ⟨true, 17, 0⟩) ∧
    is_network_stable ⟨true, 0, 0⟩ 5 false true = (true, ⟨true, 5, 1⟩) ∧
    is_network_stable ⟨true, 5, 1⟩ 10 true false = (true, ⟨true, 10, 2⟩) ∧
    is_network_stable ⟨true, 10, 2⟩ 15 false false = (false, ⟨false, 15, 3⟩) :=
  ⟨C4_network_hysteresis.1 _ 3 false false (by decide),
   C4_network_hysteresis.2.1 _ 17 (by decide),
   C4_network_hysteresis.2.2.1 true 0 5 false true (by decide) (by decide),
   C4_network_hysteresis.2.2.2.1 true 5 10 true false (by decide) (by decide),
   C4_network_hysteresis.2.2.2.2 true 10 15 false false (by decide) (by decide)⟩

/-- C5: with a handle present stop_camera attempts driver stop then driver
close and nulls the handle, changing nothing else, and its outcome is the
same whether or not either sub-call fails (the injected failures are
swallowed); with no handle it is a no-op, so a second call after a stop
does nothing and cannot fail. -/
theorem C5_stop_idempotent (s : CamState) (a b : Bool) (sz : Nat × Nat) :
    stop_camera a b { s with picam2 := some sz } =
      ({ s with picam2 := none },
       [DriverOp.stopCall, DriverOp.closeCall]) ∧
    stop_camera a b { s with picam2 := none } =
      ({ s with picam2 := none }, []) := by
  constructor <;> rfl

/-- C6: a failing capture is classified hardware exactly when the lowercased
error text contains one of the marker substrings timeout, dequeue, frontend,
connector; a hardware-classified failure force-cleans (driver stop, driver
close, handle nulled) before returning, while a non-hardware one leaves the
handle exactly as it was with no cleanup calls. -/
theorem C6_classification_cleanup (now : Nat) (msg : String) (s : CamState)
    (sz : Nat × Nat) (hps : s.picam2 = some sz) :
    (capture now (some msg) s).1 = none ∧
    (isHardwareError msg = true →
      (capture now (some msg) s).2.1.picam2 = none ∧
      (capture now (some msg) s).2.2 =
        [DriverOp.captureCall, DriverOp.stopCall, DriverOp.closeCall]) ∧
    (isHardwareError msg = false →
      (capture now (some msg) s).2.1.picam2 = s.picam2 ∧
      (capture now (some msg) s).2.2 = [DriverOp.captureCall]) ∧
    (isHardwareError msg = true ↔
      ∃ k ∈ hwKeywords, k.data <:+: msg.data.map lowerChar) := by
  obtain ⟨p2, st, lcd, web, cnt, le⟩ := s
  obtain rfl : p2 = some sz := hps
  refine ⟨?_, ?_, ?_, ?_⟩
  · by_cases hw : isHardwareError msg
    · by_cases hc : max_camera_errors ≤ cnt + 1 <;>
        simp [capture, safe_camera_operation, _capture_op,
          force_camera_cleanup, hw, hc]
    · simp [capture, safe_camera_operation, _capture_op, hw]
  · intro hw
    by_cases hc : max_camera_errors ≤ cnt + 1 <;>
      simp [capture, safe_camera_operation, _capture_op,
        force_camera_cleanup, hw, hc]
  · intro hw
    simp [capture, safe_camera_operation, _capture_op, hw]
  · simp [isHardwareError, List.any_eq_true, decide_eq_true_eq]

/-- C6 witness: a hardware-classified message at a concrete state. -/
theorem C6_classification_cleanup_witness :
    (capture 7 (some "frontend has timed out")
       { initCamState with picam2 := some (640, 480) }).1 = none ∧
    (capture 7 (some "frontend has timed out")
       { initCamState with picam2 := some (640, 480) }).2.1.picam2 = none ∧
    (capture 7 (some "frontend has timed out")
       { initCamState with picam2 := some (640, 480) }).2.2 =
      [DriverOp.captureCall, DriverOp.stopCall, DriverOp.closeCall] :=
  ⟨(C6_classification_cleanup 7 "frontend has timed out" _ (640, 480) rfl).1,
   ((C6_classification_cleanup 7 "frontend has timed out" _ (640, 480)
      rfl).2.1 (by decide)).1,
   ((C6_classification_cleanup 7 "frontend has timed out" _ (640, 480)
      rfl).2.1 (by decide)).2⟩

/-- C7: the active-client counter never goes negative, and for every event
sequence in which each detach closes an earlier attach (no prefix has more
detaches than attaches) the counter equals attaches minus detaches. -/
theorem C7_client_registry (es : List FeedEvent) :
    0 ≤ runClients es 0 ∧
    (validSeq es = true →
      runClients es 0 =
        (es.count FeedEvent.attach : Int) - es.count FeedEvent.detach) :=
  ⟨runClients_nonneg es 0 le_rfl, fun h => runClients_eq_counts es h⟩

/-- C7 witness: two attaches then one abrupt detach. -/
theorem C7_client_registry_witness :
    0 ≤ runClients
        [FeedEvent.attach, FeedEvent.attach, FeedEvent.detach] 0 ∧
    runClients [FeedEvent.attach, FeedEvent.attach, FeedEvent.detach] 0 =
      ([FeedEvent.attach, FeedEvent.attach,
        FeedEvent.detach].count FeedEvent.attach : Int) -
      [FeedEvent.attach, FeedEvent.attach,
        FeedEvent.detach].count FeedEvent.detach :=
  ⟨(C7_client_registry _).1, (C7_client_registry _).2 (by decide)⟩

/-- C8 counterexample: a start request arriving while streaming is already
active does not report already running: the route answers with the same
Stream started success message it uses for a fresh start. -/
theorem C8_counterexample :
    start_stream_route true = (false, "success", "Stream started") ∧
    ("Stream started" : String) ≠ "already running" := by
  constructor
  · rfl
  · decide

/-- C8 amended: a start request received while already streaming is a no-op
that does not invoke start_streaming, but its response is the same success
payload Stream started used for a fresh start, with no already-running
indication. -/
theorem C8_amended_no_op :
    (start_stream_route true).1 = false ∧
    (start_stream_route false).1 = true ∧
    (start_stream_route true).2 = ("success", "Stream started") := by
  refine ⟨rfl, rfl, rfl⟩

/-- C9: every sensor pixel mode is normalized to an opaque RGB image of the
same size before JPEG encoding, and an alpha-carrying RGBA frame is
composited onto an opaque white background using its alpha channel as the
paste mask rather than rejected or passed through with transparency. -/
theorem C9_web_frame_rgb (img : WebImage) :
    (_capture_web_frame_convert img).1.mode = PixMode.RGB ∧
    (_capture_web_frame_convert img).1.size = img.size ∧
    (img.mode = PixMode.RGBA →
      (_capture_web_frame_convert img).2.1 = some (255, 255, 255) ∧
      (_capture_web_frame_convert img).2.2 = true) := by
  obtain ⟨m, sz⟩ := img
  cases m <;> simp [_capture_web_frame_convert]

/-- C9 witness: an RGBA frame at the web resolution. -/
theorem C9_web_frame_rgb_witness :
    (_capture_web_frame_convert ⟨PixMode.RGBA, (640, 480)⟩).1.mode
      = PixMode.RGB ∧
    (_capture_web_frame_convert ⟨PixMode.RGBA, (640, 480)⟩).1.size
      = (640, 480) ∧
    ((_capture_web_frame_convert ⟨PixMode.RGBA, (640, 480)⟩).2.1
      = some (255, 255, 255) ∧
     (_capture_web_frame_convert ⟨PixMode.RGBA, (640, 480)⟩).2.2 = true) :=
  ⟨(C9_web_frame_rgb _).1, (C9_web_frame_rgb _).2.1,
   (C9_web_frame_rgb _).2.2 rfl⟩

/-- C10: a single-frame capture arriving with streaming off and no handle
creates a temporary camera at 640x480, captures, stops the temporary camera
and nulls the handle, returning a frame and leaving the whole state - the
handle and all streaming flags - exactly as it found it. -/
theorem C10_temp_capture_restores (now : Nat) (s : CamState)
    (h1 : s.streaming = false) (h2 : s.picam2 = none) :
    capture_route now none s =
      (some true, s,
       [DriverOp.create, DriverOp.configure (640, 480), DriverOp.start,
        DriverOp.captureCall, DriverOp.stopCall]) := by
  obtain ⟨p2, st, lcd, web, cnt, le⟩ := s
  obtain rfl : p2 = none := h2
  obtain rfl : st = false := h1
  rfl

/-- C10 witness: the fresh-boot state. -/
theorem C10_temp_capture_restores_witness :
    capture_route 0 none initCamState =
      (some true, initCamState,
       [DriverOp.create, DriverOp.configure (640, 480), DriverOp.start,
        DriverOp.captureCall, DriverOp.stopCall]) :=
  C10_temp_capture_restores 0 initCamState rfl rfl

end PiCam
